import Mathlib

set_option maxRecDepth 2000

/-!
Verification development for the credential-resolution scripts
(certkey_to_bearer_get_apikey_print_stdout.py, p1.py, plugin.py,
plugin2.py, scruf.py).  Each script authenticates to an appliance,
resolves an A2A registration, enumerates retrievable accounts and
matches a requested (system, account) pair.

Shallow embedding conventions:
* A JSON string field fetched with `obj.get(k)` is an `Option String`
  (`none` = key absent or value null).
* A nested sub-object such as `Asset` is an `Option (Option String)`:
  the outer `Option` is presence of the sub-object, the inner one the
  result of looking up the sub-key (`Name`/`Id`) in it.
* Python truthiness of such a value: `none` and `some ""` are falsy.
* HTTP traffic is abstracted by oracles mapping a request to the shape
  of the response; process-terminating error paths (`jerr`,
  `AnsibleError`, `sys.exit`) become outcome constructors.
-/

/-- Python `a or b` for two string-or-None values: yields `a` when `a`
is truthy (present and non-empty), otherwise yields `b` unchanged. -/
def pyOr (a b : Option String) : Option String :=
  match a with
  | some v => if v = "" then b else some v
  | none => b

/-- Python truthiness of a string-or-None value. -/
def truthy : Option String → Bool
  | some v => v ≠ ""
  | none => false

/-- Python `s.lower()` (ASCII range), written structurally over the
character list so that it evaluates by reduction. -/
def strLower (s : String) : String := String.mk (s.data.map Char.toLower)

/-- Python slicing `s[:n]` by code points, written structurally over
the character list so that it evaluates by reduction. -/
def strTake (s : String) (n : Nat) : String := String.mk (s.data.take n)

/-- One element of a RetrievableAccounts page, keeping exactly the keys
the scripts read: flat `AssetName`/`AccountName`, nested
`Asset.Name`/`Account.Name`, and `ApiKey`. -/
structure RAEntry where
  assetName : Option String
  asset : Option (Option String)
  accountName : Option String
  account : Option (Option String)
  apiKey : Option String
deriving DecidableEq, Repr

/-- Shape of one response to a RetrievableAccounts (or registrations)
GET, as the scripts discriminate it: 401/403, another HTTP/parse
failure, JSON that is not a list, or a JSON list of entries. -/
inductive PageResp where
  | forbidden : PageResp
  | httpErr : PageResp
  | okNonList : PageResp
  | ok : List RAEntry → PageResp
deriving DecidableEq, Repr

/-- A registration object, keeping the keys the scripts read:
`Id`, `ID` and `AppName`. -/
structure Reg where
  idField : Option String
  idUpper : Option String
  appName : Option String
deriving DecidableEq, Repr

namespace Certkey

/-- `name_from(obj, flat, nested, key)` of
certkey_to_bearer_get_apikey_print_stdout.py: the flat field wins
whenever it is not None, otherwise the key is looked up in the nested
sub-object (an absent or falsy sub-object acting as an empty dict). -/
def name_from (flat : Option String) (nested : Option (Option String)) : Option String :=
  match flat with
  | some v => some v
  | none => nested.getD none

/-- The match test of `find_api_key_for_registration`: both normalized
names equal the requested ones under Python `==` (a None name never
equals a requested string). -/
def raMatches (sys acct : String) (ra : RAEntry) : Bool :=
  name_from ra.assetName ra.asset == some sys
    && name_from ra.accountName ra.account == some acct

/-- Terminal outcomes of `find_api_key_for_registration`: `jout`
success, `jerr` for a matched record with falsy ApiKey, the final
not-found `jerr` (which names the requested pair), the 401/403 `jerr`,
and the `get_json_or_die` failure path. -/
inductive Outcome where
  | found : String → Option String → Option String → Outcome
  | apiKeyMissing : Outcome
  | notFound : String → String → Outcome
  | forbidden : Outcome
  | httpError : Outcome
deriving DecidableEq, Repr

/-- The inner `for ra in ras` loop of `find_api_key_for_registration`:
first matching entry decides (success, or missing-ApiKey error);
`none` when no entry of the page matches. -/
def scanPage (sys acct : String) : List RAEntry → Option Outcome
  | [] => none
  | ra :: rest =>
    if raMatches sys acct ra then
      match ra.apiKey with
      | none => some Outcome.apiKeyMissing
      | some k =>
        if k = "" then some Outcome.apiKeyMissing
        else some (Outcome.found k (name_from ra.assetName ra.asset)
          (name_from ra.accountName ra.account))
    else scanPage sys acct rest

/-- The `while True` pagination loop of `find_api_key_for_registration`
started at page `page`, against a server `src` mapping a page index to
its response.  Returns the outcome together with the list of page
indices queried, or `none` when the fuel runs out before the loop
terminates. -/
def findFrom (sys acct : String) (src : Nat → PageResp) :
    Nat → Nat → Option (Outcome × List Nat)
  | 0, _ => none
  | fuel + 1, page =>
    match src page with
    | PageResp.forbidden => some (Outcome.forbidden, [page])
    | PageResp.httpErr => some (Outcome.httpError, [page])
    | PageResp.okNonList => some (Outcome.notFound sys acct, [page])
    | PageResp.ok ras =>
      if ras.isEmpty then some (Outcome.notFound sys acct, [page])
      else
        match scanPage sys acct ras with
        | some o => some (o, [page])
        | none =>
          match findFrom sys acct src fuel (page + 1) with
          | some (o, qs) => some (o, page :: qs)
          | none => none

/-- `find_api_key_for_registration`: the pagination loop from page 0. -/
def find_api_key_for_registration (sys acct : String) (src : Nat → PageResp)
    (fuel : Nat) : Option (Outcome × List Nat) :=
  findFrom sys acct src fuel 0

/-- An HTTP response as `get_json_or_die` inspects it: status code,
body text, whether `r.json()` succeeds, and the Content-Type header. -/
structure HttpResp where
  status : Nat
  text : String
  jsonOk : Bool
  contentType : String
deriving Repr

/-- Result of `get_json_or_die`: success, or one of its two `jerr`
payloads (message plus diagnostic fields, the body sliced to its first
512 characters as in `r.text[:512]`). -/
inductive GJOut where
  | ok : GJOut
  | errHttp : String → String → GJOut
  | errNonJson : String → String → String → GJOut
deriving DecidableEq, Repr

/-- `get_json_or_die(r, where)`: `raise_for_status` raises exactly for
4xx/5xx, producing the where-tag-plus-HTTP-status error with the body
truncated to 512; a 2xx (or 3xx) body that fails to parse produces the
non-JSON error, also with the body truncated to 512. -/
def get_json_or_die (whereTag : String) (r : HttpResp) : GJOut :=
  if 400 ≤ r.status ∧ r.status < 600 then
    GJOut.errHttp (whereTag ++ ": HTTP " ++ toString r.status) (strTake r.text 512)
  else if r.jsonOk then GJOut.ok
  else GJOut.errNonJson (whereTag ++ ": non-JSON") r.contentType (strTake r.text 512)

/-- Shape of one response to a self-identity GET as `get_auth_identity`
discriminates it: transport exception, or a status plus whether the
JSON body parses and whether it is a dict. -/
inductive IdResp where
  | exc : IdResp
  | resp : Nat → Bool → Bool → IdResp
deriving Repr

/-- Status of `IdResp.resp s isDict jsonOk` that the loop skips with
`continue`: a 404 or a 401/403. -/
def skippableStatus (s : Nat) : Bool :=
  s == 404 || s == 401 || s == 403

/-- Terminal outcomes of `get_auth_identity`: an identity dict returned
from one endpoint, a fatal error at one endpoint (`get_json_or_die`
`jerr`, or an uncaught transport exception), or the final `jerr` after
all candidates were exhausted. -/
inductive GAIOutcome where
  | okIdent : String → GAIOutcome
  | fatal : String → GAIOutcome
  | exhausted : GAIOutcome
deriving DecidableEq, Repr

/-- The candidate self-endpoint tags of `get_auth_identity`, in source
order. -/
def candidates : List String := ["core_me", "core_whoami", "token_whoami"]

/-- The `for tag, url in candidates` loop of `get_auth_identity` over a
remaining candidate list, against a server mapping a tag to its
response; also returns the tags queried, in order. -/
def getAuthIdentityGo (srv : String → IdResp) :
    List String → GAIOutcome × List String
  | [] => (GAIOutcome.exhausted, [])
  | tag :: rest =>
    match srv tag with
    | IdResp.exc => (GAIOutcome.fatal tag, [tag])
    | IdResp.resp status isDict jsonOk =>
      if skippableStatus status then
        let r := getAuthIdentityGo srv rest
        (r.1, tag :: r.2)
      else if 400 ≤ status ∧ status < 600 then (GAIOutcome.fatal tag, [tag])
      else if !jsonOk then (GAIOutcome.fatal tag, [tag])
      else if isDict then (GAIOutcome.okIdent tag, [tag])
      else
        let r := getAuthIdentityGo srv rest
        (r.1, tag :: r.2)

/-- `get_auth_identity`: the candidate loop over the fixed list. -/
def get_auth_identity (srv : String → IdResp) : GAIOutcome × List String :=
  getAuthIdentityGo srv candidates

end Certkey

namespace P1

/-!
Model of p1.py (`spp_apikey` lookup); the matcher and `_get_json`
bodies of plugin.py are line-for-line the same code, so these
definitions cover both files.
-/

/-- The inline name extraction
`ra.get("AssetName") or (ra.get("Asset") or {}).get("Name")` of
p1.py / plugin.py: Python `or`, so a present-but-empty flat field is
falsy and loses to the nested lookup. -/
def extractName (flat : Option String) (nested : Option (Option String)) :
    Option String :=
  pyOr flat (nested.getD none)

/-- What `open_url(...)` followed by `r.read()` delivered to
`_get_json`: an exception message, or the raw body plus whether
`json.loads` succeeds on it. -/
inductive FetchOut where
  | exc : String → FetchOut
  | ok : String → Bool → FetchOut
deriving Repr

/-- Result of `_get_json`: parsed JSON, or one of its two
`AnsibleError` messages.  The non-JSON preview is the raw body sliced
to its first 256 characters (`raw[:256] ... [:256]`); the transport
error embeds only the exception text, with no separate status field. -/
inductive GetJsonOut where
  | ok : GetJsonOut
  | errFailed : String → String → GetJsonOut
  | errNonJson : String → String → GetJsonOut
deriving DecidableEq, Repr

/-- `_get_json(url)` of p1.py (and `LookupModule._get_json` of
plugin.py): any `open_url`/read failure becomes
`"GET {url} failed: {e}"`; an unparsable body becomes
`"Non-JSON from {url}: {preview!r}"` with a 256-character preview. -/
def get_json (url : String) (f : FetchOut) : GetJsonOut :=
  match f with
  | FetchOut.exc m => GetJsonOut.errFailed url m
  | FetchOut.ok _ true => GetJsonOut.ok
  | FetchOut.ok raw false => GetJsonOut.errNonJson url (strTake raw 256)

/-- Python list indexing `xs[i]` with `int` index: nonnegative indices
count from the front, indices `-n <= i < 0` count from the back as
`xs[n + i]`, anything else raises `IndexError` (modelled as `none`). -/
def pyIndex {α : Type} (xs : List α) (i : Int) : Option α :=
  if 0 ≤ i then xs.get? i.toNat
  else if i.natAbs ≤ xs.length then xs.get? (xs.length - i.natAbs)
  else none

/-- The registration selection `regs[reg_index]` of p1.py / plugin.py,
guarded only by `except IndexError`: `none` is the
`"registration_index ... out of range"` error. -/
def selectRegistration (regs : List Reg) (regIndex : Int) : Option Reg :=
  pyIndex regs regIndex

end P1

namespace Plugin2

/-!
Model of plugin2.py (`spp_bootstrap_find_get` lookup), STEP 1's index
guard and STEP 3's registration scan.
-/

/-- The bootstrap registration selection of STEP 1: unlike the other
variants it explicitly rejects `boot_reg_index < 0` (and
`>= len(regs)`) before indexing. -/
def bootstrapSelect (regs : List Reg) (i : Int) : Option Reg :=
  if i < 0 ∨ (regs.length : Int) ≤ i then none
  else regs.get? i.toNat

/-- STEP 3's normalized asset name:
`(ra.get("AssetName") or (ra.get("Asset") or {}).get("Name") or "").lower()`. -/
def assetNameOf (ra : RAEntry) : String :=
  strLower ((pyOr (pyOr ra.assetName (ra.asset.getD none)) (some "")).getD "")

/-- STEP 3's normalized account name, same shape as `assetNameOf`. -/
def accountNameOf (ra : RAEntry) : String :=
  strLower ((pyOr (pyOr ra.accountName (ra.account.getD none)) (some "")).getD "")

/-- STEP 3's match test against the lowercased requested pair
`sys_l`, `acct_l`. -/
def p2matches (sysL acctL : String) (ra : RAEntry) : Bool :=
  assetNameOf ra == sysL && accountNameOf ra == acctL

/-- Terminal outcomes of STEP 3: a final ApiKey, the
missing-ApiKey `AnsibleError` (naming the registration), the
no-match `AnsibleError` (naming the requested pair), or a terminal
`_get_json` failure. -/
inductive P2Outcome where
  | found : String → P2Outcome
  | apiKeyMissing : Nat → P2Outcome
  | notFound : String → String → P2Outcome
  | httpError : P2Outcome
deriving DecidableEq, Repr

/-- The inner `for ra in ras` loop of STEP 3 for registration `rid`:
first lowercase-matching entry decides. -/
def p2scan (sysL acctL : String) (rid : Nat) : List RAEntry → Option P2Outcome
  | [] => none
  | ra :: rest =>
    if p2matches sysL acctL ra then
      match ra.apiKey with
      | none => some (P2Outcome.apiKeyMissing rid)
      | some k =>
        if k = "" then some (P2Outcome.apiKeyMissing rid)
        else some (P2Outcome.found k)
    else p2scan sysL acctL rid rest

/-- The `for rid in regs_ids` loop of STEP 3, against a server mapping
(registration id, page index) to a response.  Each registration is
queried once with `page=0&limit=500`; a non-list or empty response
moves on to the next registration.  Returns the outcome and the list
of (rid, page) queries issued. -/
def step3Go (sys acct : String) (src : Nat → Nat → PageResp) :
    List Nat → P2Outcome × List (Nat × Nat)
  | [] => (P2Outcome.notFound sys acct, [])
  | rid :: rest =>
    match src rid 0 with
    | PageResp.forbidden => (P2Outcome.httpError, [(rid, 0)])
    | PageResp.httpErr => (P2Outcome.httpError, [(rid, 0)])
    | PageResp.okNonList =>
      let r := step3Go sys acct src rest
      (r.1, (rid, 0) :: r.2)
    | PageResp.ok ras =>
      if ras.isEmpty then
        let r := step3Go sys acct src rest
        (r.1, (rid, 0) :: r.2)
      else
        match p2scan (strLower sys) (strLower acct) rid ras with
        | some o => (o, [(rid, 0)])
        | none =>
          let r := step3Go sys acct src rest
          (r.1, (rid, 0) :: r.2)

end Plugin2

namespace Scruf

/-!
Model of scruf.py (get_apikey_via_pysafeguard.py): `main`'s
unconditional `Token/WhoAmI` call, `try_get_registration_by_id`,
`try_get_registration_by_filter` and `determine_registration`.
Registration/identity id values are modelled as strings (Python
truthiness: `none` and `some ""` are falsy).
-/

/-- The `Token/WhoAmI` payload, keeping the keys
`determine_registration` reads: `RegistrationId`, the `Application`
sub-object's `Id`, `ApplicationId`, `AppId`, `Id`, `UserId`, `ID`. -/
structure WhoAmI where
  registrationId : Option String
  applicationSub : Option (Option String)
  applicationId : Option String
  appId : Option String
  idField : Option String
  userId : Option String
  idUpper : Option String
deriving Repr

/-- The server's behaviour on `GET A2ARegistrations/{rid}`: a raised
request exception, or a status plus the body (`some reg` when the
JSON body is a dict, `none` otherwise) and whether the body parses. -/
inductive RegByIdResp where
  | exc : RegByIdResp
  | resp : Nat → Option Reg → Bool → RegByIdResp
deriving Repr

/-- The server's behaviour on a filtered `GET A2ARegistrations`. -/
inductive FilterResp where
  | exc : FilterResp
  | resp : Nat → Option (List Reg) → Bool → FilterResp
deriving Repr

/-- Result of one `try_get_registration_by_*` helper: a registration,
`None`, or a process-terminating `err` raised inside `j(...)`. -/
inductive TryResult where
  | reg : Reg → TryResult
  | noReg : TryResult
  | fatal : TryResult
deriving DecidableEq, Repr

/-- `try_get_registration_by_id`: exceptions and non-200 statuses give
`None`; on a 200, an unparsable body terminates inside `j`, a dict
body with a truthy `Id` or `ID` is returned, anything else is `None`. -/
def try_get_registration_by_id (r : RegByIdResp) : TryResult :=
  match r with
  | RegByIdResp.exc => TryResult.noReg
  | RegByIdResp.resp status body jsonOk =>
    if status ≠ 200 then TryResult.noReg
    else if !jsonOk then TryResult.fatal
    else
      match body with
      | some reg =>
        if truthy (pyOr reg.idField reg.idUpper) then TryResult.reg reg
        else TryResult.noReg
      | none => TryResult.noReg

/-- `try_get_registration_by_filter`: exceptions and 401/403 give
`None`; `j` terminates on any other 4xx/5xx or unparsable body; a
non-empty list body yields its first element, anything else `None`. -/
def try_get_registration_by_filter (r : FilterResp) : TryResult :=
  match r with
  | FilterResp.exc => TryResult.noReg
  | FilterResp.resp status body jsonOk =>
    if status = 401 ∨ status = 403 then TryResult.noReg
    else if 400 ≤ status ∧ status < 600 then TryResult.fatal
    else if !jsonOk then TryResult.fatal
    else
      match body with
      | some (reg :: _) => TryResult.reg reg
      | _ => TryResult.noReg

/-- One network call of the scruf flow, for call-trace reasoning. -/
inductive Call where
  | whoami : Call
  | regById : String → Call
  | regByFilter : String → Call
deriving DecidableEq, Repr

/-- Result of `determine_registration`: a registration with its
source label, the `(None, None)` outcome, or a terminal `err` from
inside a helper. -/
inductive DetResult where
  | found : Reg → String → DetResult
  | noneFound : DetResult
  | fatal : DetResult
deriving DecidableEq, Repr

/-- The server as `determine_registration` consults it. -/
structure Server where
  regById : String → RegByIdResp
  regByFilter : String → FilterResp

/-- `determine_registration(conn, whoami)` plus the `REG_ID`
environment override, returning its result and the calls issued, in
order.  Strategy order as in scruf.py: env override, direct
`RegistrationId`, `Application/Id` filter, `Owner/Id` filter; a
strategy whose guard value is falsy, or whose attempt yields `None`,
falls through to the next. -/
def determine_registration (envRegId : Option String) (srv : Server)
    (w : WhoAmI) : DetResult × List Call :=
  let step3 : DetResult × List Call :=
    match pyOr w.idField (pyOr w.userId w.idUpper) with
    | some oid =>
      if oid = "" then (DetResult.noneFound, [])
      else
        let flt := "Owner/Id eq " ++ oid
        match try_get_registration_by_filter (srv.regByFilter flt) with
        | TryResult.reg r => (DetResult.found r "Owner/Id", [Call.regByFilter flt])
        | TryResult.fatal => (DetResult.fatal, [Call.regByFilter flt])
        | TryResult.noReg => (DetResult.noneFound, [Call.regByFilter flt])
    | none => (DetResult.noneFound, [])
  let step2 : DetResult × List Call :=
    match pyOr (w.applicationSub.getD none) (pyOr w.applicationId w.appId) with
    | some aid =>
      if aid = "" then step3
      else
        let flt := "Application/Id eq " ++ aid
        match try_get_registration_by_filter (srv.regByFilter flt) with
        | TryResult.reg r => (DetResult.found r "Application/Id", [Call.regByFilter flt])
        | TryResult.fatal => (DetResult.fatal, [Call.regByFilter flt])
        | TryResult.noReg => (step3.1, Call.regByFilter flt :: step3.2)
    | none => step3
  let step1 : DetResult × List Call :=
    match w.registrationId with
    | some rid =>
      if rid = "" then step2
      else
        match try_get_registration_by_id (srv.regById rid) with
        | TryResult.reg r =>
          (DetResult.found r "Token/WhoAmI.RegistrationId", [Call.regById rid])
        | TryResult.fatal => (DetResult.fatal, [Call.regById rid])
        | TryResult.noReg => (step2.1, Call.regById rid :: step2.2)
    | none => step2
  match envRegId with
  | some erid =>
    if erid = "" then step1
    else
      match try_get_registration_by_id (srv.regById erid) with
      | TryResult.reg r => (DetResult.found r "env(REG_ID)", [Call.regById erid])
      | TryResult.fatal => (DetResult.fatal, [Call.regById erid])
      | TryResult.noReg => (step1.1, Call.regById erid :: step1.2)
  | none => step1

/-- The server's behaviour on `GET Token/WhoAmI` in `main`. -/
inductive WhoamiResp where
  | exc : WhoamiResp
  | resp : Nat → Option WhoAmI → Bool → WhoamiResp
deriving Repr

/-- The whole world `main` runs against: the `REG_ID` environment
variable and the server's responses. -/
structure World where
  envRegId : Option String
  whoamiR : WhoamiResp
  regById : String → RegByIdResp
  regByFilter : String → FilterResp

/-- Outcome of `main`'s resolution phase (through
`determine_registration`). -/
inductive MainOutcome where
  | resolved : Reg → String → MainOutcome
  | resolveFailed : MainOutcome
  | whoamiFailed : MainOutcome
  | crashed : MainOutcome
  | fatal : MainOutcome
deriving DecidableEq, Repr

/-- `main` up to registration resolution: after connecting it always
issues the `Token/WhoAmI` call — before `determine_registration` ever
looks at the `REG_ID` override — then resolves.  Returns the outcome
and the calls issued, the unconditional WhoAmI call first. -/
def mainResolve (wld : World) : MainOutcome × List Call :=
  let rest : MainOutcome × List Call :=
    match wld.whoamiR with
    | WhoamiResp.exc => (MainOutcome.whoamiFailed, [])
    | WhoamiResp.resp status body jsonOk =>
      if 400 ≤ status ∧ status < 600 then (MainOutcome.whoamiFailed, [])
      else if !jsonOk then (MainOutcome.whoamiFailed, [])
      else
        match body with
        | none => (MainOutcome.crashed, [])
        | some w =>
          match determine_registration wld.envRegId
              ⟨wld.regById, wld.regByFilter⟩ w with
          | (DetResult.found r s, t) => (MainOutcome.resolved r s, t)
          | (DetResult.noneFound, t) => (MainOutcome.resolveFailed, t)
          | (DetResult.fatal, t) => (MainOutcome.fatal, t)
  (rest.1, Call.whoami :: rest.2)

end Scruf

namespace Fixture

/-!
Concrete servers and payloads used to evaluate the models on closed
inputs (for counterexamples and witnesses).
-/

/-- An entry matching neither requested pair used below. -/
def raNoMatch : RAEntry :=
  ⟨some "x1", none, some "y1", none, some "K1"⟩

/-- An exactly matching entry for the request ("db01", "svc"). -/
def raMatch : RAEntry :=
  ⟨some "db01", none, some "svc", none, some "KEY1"⟩

/-- An entry matching ("db01", "svc") only case-insensitively. -/
def raUpper : RAEntry :=
  ⟨some "DB01", none, some "SVC", none, some "KEY9"⟩

/-- A matching entry whose ApiKey is absent. -/
def raMatchNoKey : RAEntry :=
  ⟨some "db01", none, some "svc", none, none⟩

/-- A per-registration paged source: registration 7 answers one full
page of 500 non-matching entries at page 0 and an empty page at
page 1. -/
def c1src : Nat → Nat → PageResp := fun rid page =>
  if rid = 7 ∧ page = 0 then PageResp.ok (List.replicate 500 raNoMatch)
  else if rid = 7 ∧ page = 1 then PageResp.ok [] else PageResp.okNonList

/-- A single-registration paged source for the certkey loop: two
non-empty non-matching pages, then an empty page. -/
def wsrc : Nat → PageResp := fun page =>
  if page = 0 ∨ page = 1 then PageResp.ok [raNoMatch] else PageResp.ok []

/-- A per-registration source whose registration 1 holds only the
case-insensitively matching entry. -/
def c2src : Nat → Nat → PageResp := fun rid page =>
  if rid = 1 ∧ page = 0 then PageResp.ok [raUpper] else PageResp.ok []

/-- The registration object with Id "42". -/
def reg42 : Reg := ⟨some "42", none, none⟩

/-- The registration object with Id "7". -/
def reg7 : Reg := ⟨some "7", none, none⟩

/-- A WhoAmI payload with every identity field absent. -/
def wEmpty : Scruf.WhoAmI := ⟨none, none, none, none, none, none, none⟩

/-- A WhoAmI payload carrying only RegistrationId "7". -/
def wRegId7 : Scruf.WhoAmI := ⟨some "7", none, none, none, none, none, none⟩

/-- A scruf world where the REG_ID override "42" is supplied and
resolves directly. -/
def w4 : Scruf.World :=
  ⟨some "42",
   Scruf.WhoamiResp.resp 200 (some wEmpty) true,
   fun rid =>
     if rid = "42" then Scruf.RegByIdResp.resp 200 (some reg42) true
     else Scruf.RegByIdResp.exc,
   fun _ => Scruf.FilterResp.exc⟩

/-- A scruf server where the overridden id "99" does not resolve
(status 404) but the WhoAmI-derived id "7" does. -/
def srv5 : Scruf.Server :=
  ⟨fun rid =>
     if rid = "7" then Scruf.RegByIdResp.resp 200 (some reg7) true
     else Scruf.RegByIdResp.resp 404 none true,
   fun _ => Scruf.FilterResp.exc⟩

/-- A self-endpoint server answering 404, 401 and 403 on the three
candidate endpoints. -/
def srv6 : String → Certkey.IdResp := fun tag =>
  if tag = "core_me" then Certkey.IdResp.resp 404 true true
  else if tag = "core_whoami" then Certkey.IdResp.resp 401 true true
  else Certkey.IdResp.resp 403 true true

/-- A 300-character response body, longer than 256 but shorter than
512. -/
def c9raw : String := String.mk (List.replicate 300 'a')

/-- Two registrations, for indexing from the back. -/
def regA : Reg := ⟨some "1", none, none⟩

/-- Second registration of the two-element fixture list. -/
def regB : Reg := ⟨some "2", none, none⟩

end Fixture

/-!
Helper lemmas about the pagination and scanning loops, shared by the
claim theorems below.
-/

/-- Scanning skips over a prefix of non-matching entries. -/
theorem scanPage_append_none (sys acct : String) :
    ∀ pre rest : List RAEntry,
      (∀ x ∈ pre, Certkey.raMatches sys acct x = false) →
      Certkey.scanPage sys acct (pre ++ rest) = Certkey.scanPage sys acct rest := by
  intro pre
  induction pre with
  | nil => intro rest _; rfl
  | cons a as ih =>
    intro rest h
    have ha := h a (List.mem_cons_self a as)
    have hrest := ih rest fun x hx => h x (List.mem_cons_of_mem a hx)
    simp [Certkey.scanPage, ha, hrest]

/-- Once a page's scan decides, the pagination loop stops at that page
with that outcome. -/
theorem findFrom_stop (sys acct : String) (src : Nat → PageResp)
    (fuel page : Nat) (ras : List RAEntry) (o : Certkey.Outcome)
    (hsrc : src page = PageResp.ok ras) (hne : ras ≠ [])
    (hscan : Certkey.scanPage sys acct ras = some o) :
    Certkey.findFrom sys acct src (fuel + 1) page = some (o, [page]) := by
  rcases ras with _ | ⟨a, as⟩
  · exact absurd rfl hne
  · simp [Certkey.findFrom, hsrc, hscan]

/-- When pages `p`, `p+1`, ..., `p+N-1` are non-empty lists without a
match and page `p+N` is an empty list, the loop started at `p` fails
not-found after querying exactly the `N+1` consecutive pages. -/
theorem findFrom_exhaust (sys acct : String) (src : Nat → PageResp) :
    ∀ N p fuel : Nat,
      (∀ i, i < N → ∃ pg, src (p + i) = PageResp.ok pg ∧ pg ≠ [] ∧
        Certkey.scanPage sys acct pg = none) →
      src (p + N) = PageResp.ok [] →
      N + 1 ≤ fuel →
      Certkey.findFrom sys acct src fuel p =
        some (Certkey.Outcome.notFound sys acct, List.range' p (N + 1)) := by
  intro N
  induction N with
  | zero =>
    intro p fuel _ hend hfuel
    obtain ⟨f, rfl⟩ : ∃ f, fuel = f + 1 := ⟨fuel - 1, by omega⟩
    rw [Nat.add_zero] at hend
    simp [Certkey.findFrom, hend, List.range']
  | succ N ih =>
    intro p fuel hfull hend hfuel
    obtain ⟨f, rfl⟩ : ∃ f, fuel = f + 1 := ⟨fuel - 1, by omega⟩
    obtain ⟨pg, hpg, hne, hscan⟩ := hfull 0 (Nat.succ_pos N)
    rw [Nat.add_zero] at hpg
    have hrec := ih (p + 1) f
      (fun i hi => by
        have hh := hfull (i + 1) (by omega)
        rwa [show p + (i + 1) = p + 1 + i by omega] at hh)
      (by rwa [show p + 1 + N = p + (N + 1) by omega])
      (by omega)
    rcases pg with _ | ⟨a, as⟩
    · exact absurd rfl hne
    · simp [Certkey.findFrom, hpg, hscan, hrec, List.range']

/-- Scanning a page of identical non-matching entries finds nothing. -/
theorem p2scan_replicate_none (sysL acctL : String) (rid : Nat) (e : RAEntry)
    (hm : Plugin2.p2matches sysL acctL e = false) :
    ∀ n : Nat, Plugin2.p2scan sysL acctL rid (List.replicate n e) = none := by
  intro n
  induction n with
  | zero => rfl
  | succ n ih => simp [List.replicate_succ, Plugin2.p2scan, hm, ih]

/-- The STEP 3 scan skips over a prefix of non-matching entries. -/
theorem p2scan_append_none (sysL acctL : String) (rid : Nat) :
    ∀ pre rest : List RAEntry,
      (∀ x ∈ pre, Plugin2.p2matches sysL acctL x = false) →
      Plugin2.p2scan sysL acctL rid (pre ++ rest) =
        Plugin2.p2scan sysL acctL rid rest := by
  intro pre
  induction pre with
  | nil => intro rest _; rfl
  | cons a as ih =>
    intro rest h
    have ha := h a (List.mem_cons_self a as)
    have hrest := ih rest fun x hx => h x (List.mem_cons_of_mem a hx)
    simp [Plugin2.p2scan, ha, hrest]

/-- Once one registration's scan decides, STEP 3 stops with that
outcome, consulting no further registrations. -/
theorem step3_stop (sys acct : String) (src : Nat → Nat → PageResp)
    (rid : Nat) (rest : List Nat) (ras : List RAEntry) (o : Plugin2.P2Outcome)
    (hsrc : src rid 0 = PageResp.ok ras) (hne : ras ≠ [])
    (hscan : Plugin2.p2scan (strLower sys) (strLower acct) rid ras = some o) :
    Plugin2.step3Go sys acct src (rid :: rest) = (o, [(rid, 0)]) := by
  rcases ras with _ | ⟨a, as⟩
  · exact absurd rfl hne
  · simp [Plugin2.step3Go, hsrc, hscan]

/-- When no consulted registration's single page yields a match,
STEP 3 fails not-found naming the requested pair, after querying page
0 of every registration. -/
theorem step3_exhaust (sys acct : String) (src : Nat → Nat → PageResp) :
    ∀ rids : List Nat,
      (∀ rid ∈ rids, ∃ ras, src rid 0 = PageResp.ok ras ∧
        Plugin2.p2scan (strLower sys) (strLower acct) rid ras = none) →
      Plugin2.step3Go sys acct src rids =
        (Plugin2.P2Outcome.notFound sys acct, rids.map fun r => (r, 0)) := by
  intro rids
  induction rids with
  | nil => intro _; rfl
  | cons rid rest ih =>
    intro h
    obtain ⟨ras, hsrc, hscan⟩ := h rid (List.mem_cons_self rid rest)
    have hrest := ih fun r hr => h r (List.mem_cons_of_mem rid hr)
    rcases ras with _ | ⟨a, as⟩
    · simp [Plugin2.step3Go, hsrc, hrest]
    · simp [Plugin2.step3Go, hsrc, hscan, hrest]

/-- Every query STEP 3 issues is a page-0 query for one of the
consulted registrations. -/
theorem step3_queries_page0 (sys acct : String) (src : Nat → Nat → PageResp) :
    ∀ (rids : List Nat) (q : Nat × Nat),
      q ∈ (Plugin2.step3Go sys acct src rids).2 → q.2 = 0 ∧ q.1 ∈ rids := by
  intro rids
  induction rids with
  | nil => intro q hq; simp [Plugin2.step3Go] at hq
  | cons rid rest ih =>
    intro q hq
    rw [Plugin2.step3Go] at hq
    rcases hs : src rid 0 with _ | _ | _ | ras <;> rw [hs] at hq
    · simp at hq; simp [hq]
    · simp at hq; simp [hq]
    · simp at hq
      rcases hq with hq | hq
      · simp [hq]
      · have := ih q hq
        exact ⟨this.1, List.mem_cons_of_mem rid this.2⟩
    · by_cases hemp : ras.isEmpty
      · simp [hemp] at hq
        rcases hq with hq | hq
        · simp [hq]
        · have := ih q hq
          exact ⟨this.1, List.mem_cons_of_mem rid this.2⟩
      · simp [hemp] at hq
        rcases hsc : Plugin2.p2scan (strLower sys) (strLower acct) rid ras with _ | o <;>
          rw [hsc] at hq
        · simp at hq
          rcases hq with hq | hq
          · simp [hq]
          · have := ih q hq
            exact ⟨this.1, List.mem_cons_of_mem rid this.2⟩
        · simp at hq; simp [hq]

/-!
Claim theorems.
-/

/-- Claim C1, counterexample: the bootstrap variant's retrievable-account
scan (plugin2.py STEP 3) does not paginate.  Against a source whose
registration 7 has one full page of 500 entries followed by an empty
page (N = 1), it issues exactly one query — page 0 — not N + 1 = 2. -/
theorem C1_counterexample :
    (Plugin2.step3Go "db01" "svc" Fixture.c1src [7]).2 = [(7, 0)] ∧
    (Plugin2.step3Go "db01" "svc" Fixture.c1src [7]).2.length ≠ 1 + 1 := by
  have hm : Plugin2.p2matches (strLower "db01") (strLower "svc") Fixture.raNoMatch = false := by
    decide
  have h1 : Fixture.c1src 7 0 = PageResp.ok (List.replicate 500 Fixture.raNoMatch) := rfl
  have hall : ∀ rid ∈ [7], ∃ ras, Fixture.c1src rid 0 = PageResp.ok ras ∧
      Plugin2.p2scan (strLower "db01") (strLower "svc") rid ras = none := by
    intro rid hr
    simp only [List.mem_singleton] at hr
    subst hr
    exact ⟨_, h1, p2scan_replicate_none (strLower "db01") (strLower "svc") 7
      Fixture.raNoMatch hm 500⟩
  have h := step3_exhaust "db01" "svc" Fixture.c1src [7] hall
  rw [h]
  exact ⟨rfl, by decide⟩

/-- Claim C1, amended: in the paginated variants (the certkey loop,
shared verbatim by p1.py, plugin.py and scruf.py) the page index starts
at 0, increments by exactly one per request, enumeration stops at the
first response that is not a non-empty list, and a source with N full
non-matching pages followed by one empty page is queried exactly N + 1
times; the bootstrap variant instead issues exactly one page-0 query
per registration consulted. -/
theorem C1_pagination :
    (∀ (sys acct : String) (src : Nat → PageResp) (N fuel : Nat),
      (∀ i, i < N → ∃ pg, src i = PageResp.ok pg ∧ pg ≠ [] ∧
        Certkey.scanPage sys acct pg = none) →
      src N = PageResp.ok [] →
      N + 1 ≤ fuel →
      Certkey.find_api_key_for_registration sys acct src fuel =
        some (Certkey.Outcome.notFound sys acct, List.range (N + 1))) ∧
    (∀ (sys acct : String) (src : Nat → Nat → PageResp) (rids : List Nat)
      (q : Nat × Nat), q ∈ (Plugin2.step3Go sys acct src rids).2 →
      q.2 = 0 ∧ q.1 ∈ rids) := by
  constructor
  · intro sys acct src N fuel hfull hend hfuel
    have h := findFrom_exhaust sys acct src N 0 fuel
      (by simpa using hfull) (by simpa using hend) hfuel
    rw [Certkey.find_api_key_for_registration, h, List.range_eq_range']
  · exact step3_queries_page0

/-- Witness for C1: two non-empty non-matching pages then an empty
page, queried exactly three times, pages 0, 1, 2. -/
theorem C1_witness :
    Certkey.find_api_key_for_registration "db01" "svc" Fixture.wsrc 5 =
      some (Certkey.Outcome.notFound "db01" "svc", List.range 3) := by
  exact C1_pagination.1 "db01" "svc" Fixture.wsrc 2 5
    (by
      intro i hi
      refine ⟨[Fixture.raNoMatch], ?_, by simp, by decide⟩
      interval_cases i <;> rfl)
    rfl (by omega)

/-- Claim C2, counterexample: the bootstrap variant's matcher compares
case-insensitively, not under exact string equality — requesting
("db01", "svc") it returns the entry whose names are ("DB01", "SVC"),
an entry the exact-equality test rejects. -/
theorem C2_counterexample :
    Plugin2.step3Go "db01" "svc" Fixture.c2src [1] =
      (Plugin2.P2Outcome.found "KEY9", [(1, 0)]) ∧
    Certkey.raMatches "db01" "svc" Fixture.raUpper = false := by
  constructor
  · exact step3_stop "db01" "svc" Fixture.c2src 1 [] [Fixture.raUpper]
      (Plugin2.P2Outcome.found "KEY9") rfl (by simp) (by decide)
  · decide

/-- Claim C2, amended: the direct variants return the first entry whose
normalized pair equals the requested pair under exact string equality
and stop enumerating immediately at the match (no further entries,
pages); the bootstrap variant compares case-insensitively (lowercased)
but likewise takes the first match and consults no further
registrations. -/
theorem C2_first_match :
    (∀ (sys acct : String) (pre : List RAEntry) (e : RAEntry)
      (post : List RAEntry) (k : String),
      (∀ x ∈ pre, Certkey.raMatches sys acct x = false) →
      Certkey.raMatches sys acct e = true → e.apiKey = some k → k ≠ "" →
      Certkey.scanPage sys acct (pre ++ e :: post) =
        some (Certkey.Outcome.found k (Certkey.name_from e.assetName e.asset)
          (Certkey.name_from e.accountName e.account))) ∧
    (∀ (sys acct : String) (src : Nat → PageResp) (fuel page : Nat)
      (ras : List RAEntry) (o : Certkey.Outcome),
      src page = PageResp.ok ras → ras ≠ [] →
      Certkey.scanPage sys acct ras = some o →
      Certkey.findFrom sys acct src (fuel + 1) page = some (o, [page])) ∧
    (∀ (sys acct : String) (rid : Nat) (pre : List RAEntry) (e : RAEntry)
      (post : List RAEntry) (k : String),
      (∀ x ∈ pre, Plugin2.p2matches (strLower sys) (strLower acct) x = false) →
      Plugin2.p2matches (strLower sys) (strLower acct) e = true →
      e.apiKey = some k → k ≠ "" →
      Plugin2.p2scan (strLower sys) (strLower acct) rid (pre ++ e :: post) =
        some (Plugin2.P2Outcome.found k)) ∧
    (∀ (sys acct : String) (src : Nat → Nat → PageResp) (rid : Nat)
      (rest : List Nat) (ras : List RAEntry) (o : Plugin2.P2Outcome),
      src rid 0 = PageResp.ok ras → ras ≠ [] →
      Plugin2.p2scan (strLower sys) (strLower acct) rid ras = some o →
      Plugin2.step3Go sys acct src (rid :: rest) = (o, [(rid, 0)])) := by
  refine ⟨?_, findFrom_stop, ?_, step3_stop⟩
  · intro sys acct pre e post k hpre hm hk hkne
    rw [scanPage_append_none sys acct pre (e :: post) hpre]
    simp [Certkey.scanPage, hm, hk, hkne]
  · intro sys acct rid pre e post k hpre hm hk hkne
    rw [p2scan_append_none (strLower sys) (strLower acct) rid pre (e :: post) hpre]
    simp [Plugin2.p2scan, hm, hk, hkne]

/-- Witness for C2: a non-matching entry followed by the exact match
yields the match's key; the case-insensitive scan does the same on a
lowercase request against an uppercase entry. -/
theorem C2_witness :
    Certkey.scanPage "db01" "svc"
        ([Fixture.raNoMatch] ++ Fixture.raMatch :: [Fixture.raUpper]) =
      some (Certkey.Outcome.found "KEY1"
        (Certkey.name_from Fixture.raMatch.assetName Fixture.raMatch.asset)
        (Certkey.name_from Fixture.raMatch.accountName Fixture.raMatch.account)) ∧
    Plugin2.p2scan (strLower "db01") (strLower "svc") 3
        ([Fixture.raNoMatch] ++ Fixture.raUpper :: []) =
      some (Plugin2.P2Outcome.found "KEY9") := by
  constructor
  · exact C2_first_match.1 "db01" "svc" [Fixture.raNoMatch] Fixture.raMatch
      [Fixture.raUpper] "KEY1" (by decide) (by decide) rfl (by decide)
  · exact C2_first_match.2.2.1 "db01" "svc" 3 [Fixture.raNoMatch] Fixture.raUpper
      [] "KEY9" (by decide) (by decide) rfl (by decide)

/-- Claim C3, counterexample: the truthiness-based inline extraction of
p1.py/plugin.py diverges on empty strings — a flat field holding "" and
a nested field holding "" normalize differently, and a present flat ""
loses to a nested value instead of taking precedence. -/
theorem C3_counterexample :
    P1.extractName (some "") none ≠ P1.extractName none (some (some "")) ∧
    P1.extractName (some "") (some (some "X")) ≠ some "" := by
  decide

/-- Claim C3, amended: for the is-not-None helper `name_from`
(certkey/scruf) flat and nested shapes with the same underlying value
always normalize identically and a present flat field always takes
precedence; for the truthiness-based inline extraction (p1.py /
plugin.py) both properties hold provided the underlying value is a
non-empty string. -/
theorem C3_normalization :
    (∀ v : String, Certkey.name_from (some v) none =
      Certkey.name_from none (some (some v))) ∧
    (∀ v w : String, Certkey.name_from (some v) (some (some w)) = some v) ∧
    (∀ v : String, v ≠ "" →
      P1.extractName (some v) none = P1.extractName none (some (some v))) ∧
    (∀ v w : String, v ≠ "" →
      P1.extractName (some v) (some (some w)) = some v) := by
  refine ⟨fun v => rfl, fun v w => rfl, ?_, ?_⟩
  · intro v hv
    simp [P1.extractName, pyOr, hv]
  · intro v w hv
    simp [P1.extractName, pyOr, hv]

/-- Witness for C3 at the non-empty value "db01". -/
theorem C3_witness :
    Certkey.name_from (some "db01") (some (some "x")) = some "db01" ∧
    P1.extractName (some "db01") none = P1.extractName none (some (some "db01")) ∧
    P1.extractName (some "db01") (some (some "x")) = some "db01" := by
  exact ⟨C3_normalization.2.1 "db01" "x",
    C3_normalization.2.2.1 "db01" (by decide),
    C3_normalization.2.2.2 "db01" "x" (by decide)⟩

/-- Claim C4, counterexample: scruf.py's `main` issues the
`Token/WhoAmI` identity call unconditionally, before
`determine_registration` ever reads the REG_ID override — here the
override "42" is supplied and resolves, yet the call trace still
contains the WhoAmI call. -/
theorem C4_counterexample :
    Fixture.w4.envRegId = some "42" ∧
    (Scruf.mainResolve Fixture.w4).2 =
      [Scruf.Call.whoami, Scruf.Call.regById "42"] ∧
    Scruf.Call.whoami ∈ (Scruf.mainResolve Fixture.w4).2 := by
  decide

/-- Claim C4, amended: the identity endpoint is called unconditionally
as the first call of every run, even when an override is supplied;
however, when the override is absent and the direct `RegistrationId`
identity field is present and resolves, the filter-based search
strategies are never attempted. -/
theorem C4_resolution_order :
    (∀ wld : Scruf.World,
      (Scruf.mainResolve wld).2.head? = some Scruf.Call.whoami) ∧
    (∀ (srv : Scruf.Server) (w : Scruf.WhoAmI) (envR : Option String)
      (rid : String) (r : Reg),
      (envR = none ∨ envR = some "") →
      w.registrationId = some rid → rid ≠ "" →
      Scruf.try_get_registration_by_id (srv.regById rid) = Scruf.TryResult.reg r →
      Scruf.determine_registration envR srv w =
        (Scruf.DetResult.found r "Token/WhoAmI.RegistrationId",
          [Scruf.Call.regById rid])) := by
  constructor
  · intro wld
    rfl
  · intro srv w envR rid r henv hrid hne htry
    rcases henv with h | h <;> subst h <;>
      simp [Scruf.determine_registration, hrid, hne, htry]

/-- Witness for C4: the WhoAmI call leads the trace of the concrete
override world, and with no override the resolving RegistrationId "7"
is the only registration call made. -/
theorem C4_witness :
    (Scruf.mainResolve Fixture.w4).2.head? = some Scruf.Call.whoami ∧
    Scruf.determine_registration none Fixture.srv5 Fixture.wRegId7 =
      (Scruf.DetResult.found Fixture.reg7 "Token/WhoAmI.RegistrationId",
        [Scruf.Call.regById "7"]) := by
  exact ⟨C4_resolution_order.1 Fixture.w4,
    C4_resolution_order.2 Fixture.srv5 Fixture.wRegId7 none "7" Fixture.reg7
      (Or.inl rfl) rfl (by decide) (by decide)⟩

/-- Claim C5, counterexample: with the override "99" supplied but not
resolving (status 404), scruf.py does not fail — it silently falls
through and resolves via the WhoAmI-derived RegistrationId "7". -/
theorem C5_counterexample :
    Scruf.try_get_registration_by_id (Fixture.srv5.regById "99") =
      Scruf.TryResult.noReg ∧
    Scruf.determine_registration (some "99") Fixture.srv5 Fixture.wRegId7 =
      (Scruf.DetResult.found Fixture.reg7 "Token/WhoAmI.RegistrationId",
        [Scruf.Call.regById "99", Scruf.Call.regById "7"]) := by
  decide

/-- Claim C5, amended: when the supplied override id resolves it is
fetched directly and used (source env(REG_ID)); when it does not
resolve, the resolver does not fail but continues exactly as if no
override had been supplied, merely prepending the failed override
fetch to the call trace. -/
theorem C5_override :
    (∀ (srv : Scruf.Server) (w : Scruf.WhoAmI) (erid : String) (r : Reg),
      erid ≠ "" →
      Scruf.try_get_registration_by_id (srv.regById erid) = Scruf.TryResult.reg r →
      Scruf.determine_registration (some erid) srv w =
        (Scruf.DetResult.found r "env(REG_ID)", [Scruf.Call.regById erid])) ∧
    (∀ (srv : Scruf.Server) (w : Scruf.WhoAmI) (erid : String),
      erid ≠ "" →
      Scruf.try_get_registration_by_id (srv.regById erid) = Scruf.TryResult.noReg →
      Scruf.determine_registration (some erid) srv w =
        ((Scruf.determine_registration none srv w).1,
          Scruf.Call.regById erid :: (Scruf.determine_registration none srv w).2)) := by
  constructor
  · intro srv w erid r hne htry
    simp [Scruf.determine_registration, hne, htry]
  · intro srv w erid hne htry
    simp [Scruf.determine_registration, hne, htry]

/-- Witness for C5: the resolving override "7" is used directly; the
non-resolving override "99" produces the no-override run's result with
the failed fetch prepended. -/
theorem C5_witness :
    Scruf.determine_registration (some "7") Fixture.srv5 Fixture.wEmpty =
      (Scruf.DetResult.found Fixture.reg7 "env(REG_ID)",
        [Scruf.Call.regById "7"]) ∧
    Scruf.determine_registration (some "99") Fixture.srv5 Fixture.wRegId7 =
      ((Scruf.determine_registration none Fixture.srv5 Fixture.wRegId7).1,
        Scruf.Call.regById "99" ::
          (Scruf.determine_registration none Fixture.srv5 Fixture.wRegId7).2) := by
  exact ⟨C5_override.1 Fixture.srv5 Fixture.wEmpty "7" Fixture.reg7
      (by decide) (by decide),
    C5_override.2 Fixture.srv5 Fixture.wRegId7 "99" (by decide) (by decide)⟩

/-- Claim C6: `get_auth_identity` tries exactly its three candidate
self-endpoint paths in fixed order, treats a 404 and a 401/403 alike
as try-next, and fails with the exhausted-identity error only after
all candidates were queried. -/
theorem C6_whoami_fallback :
    Certkey.candidates.length = 3 ∧
    (∀ srv : String → Certkey.IdResp,
      (∀ tag ∈ Certkey.candidates, ∃ s d j, srv tag = Certkey.IdResp.resp s d j ∧
        Certkey.skippableStatus s = true) →
      Certkey.get_auth_identity srv =
        (Certkey.GAIOutcome.exhausted, Certkey.candidates)) := by
  refine ⟨rfl, ?_⟩
  intro srv h
  obtain ⟨s1, d1, j1, h1, hs1⟩ := h "core_me" (by simp [Certkey.candidates])
  obtain ⟨s2, d2, j2, h2, hs2⟩ := h "core_whoami" (by simp [Certkey.candidates])
  obtain ⟨s3, d3, j3, h3, hs3⟩ := h "token_whoami" (by simp [Certkey.candidates])
  simp [Certkey.get_auth_identity, Certkey.getAuthIdentityGo, Certkey.candidates,
    h1, h2, h3, hs1, hs2, hs3]

/-- Witness for C6: a server answering 404, 401 and 403 on the three
candidates leads to exhaustion after all three were tried in order. -/
theorem C6_witness :
    Certkey.get_auth_identity Fixture.srv6 =
      (Certkey.GAIOutcome.exhausted, Certkey.candidates) := by
  apply C6_whoami_fallback.2
  intro tag htag
  simp only [Certkey.candidates, List.mem_cons, List.mem_singleton,
    List.not_mem_nil, or_false] at htag
  rcases htag with h | h | h <;> subst h
  · exact ⟨404, true, true, rfl, rfl⟩
  · exact ⟨401, true, true, rfl, rfl⟩
  · exact ⟨403, true, true, rfl, rfl⟩

/-- Claim C7: a matched entry whose ApiKey is absent or empty makes the
scan fail with the missing-ApiKey error at once — later entries are
never consulted — and the pagination loop stops at that page with that
error rather than fetching further pages or returning a success. -/
theorem C7_missing_apikey :
    (∀ (sys acct : String) (pre : List RAEntry) (e : RAEntry)
      (post : List RAEntry),
      (∀ x ∈ pre, Certkey.raMatches sys acct x = false) →
      Certkey.raMatches sys acct e = true →
      (e.apiKey = none ∨ e.apiKey = some "") →
      Certkey.scanPage sys acct (pre ++ e :: post) =
        some Certkey.Outcome.apiKeyMissing) ∧
    (∀ (sys acct : String) (src : Nat → PageResp) (fuel page : Nat)
      (ras : List RAEntry),
      src page = PageResp.ok ras → ras ≠ [] →
      Certkey.scanPage sys acct ras = some Certkey.Outcome.apiKeyMissing →
      Certkey.findFrom sys acct src (fuel + 1) page =
        some (Certkey.Outcome.apiKeyMissing, [page])) := by
  constructor
  · intro sys acct pre e post hpre hm hk
    rw [scanPage_append_none sys acct pre (e :: post) hpre]
    rcases hk with hk | hk <;> simp [Certkey.scanPage, hm, hk]
  · intro sys acct src fuel page ras hsrc hne hscan
    exact findFrom_stop sys acct src fuel page ras _ hsrc hne hscan

/-- Witness for C7: the key-less match sitting before a well-formed
match still aborts with the missing-ApiKey error, and the loop stops
at its page. -/
theorem C7_witness :
    Certkey.scanPage "db01" "svc"
        ([Fixture.raNoMatch] ++ Fixture.raMatchNoKey :: [Fixture.raMatch]) =
      some Certkey.Outcome.apiKeyMissing ∧
    Certkey.findFrom "db01" "svc" (fun _ => PageResp.ok [Fixture.raMatchNoKey]) 1 0 =
      some (Certkey.Outcome.apiKeyMissing, [0]) := by
  constructor
  · exact C7_missing_apikey.1 "db01" "svc" [Fixture.raNoMatch] Fixture.raMatchNoKey
      [Fixture.raMatch] (by decide) (by decide) (Or.inl rfl)
  · exact C7_missing_apikey.2 "db01" "svc" (fun _ => PageResp.ok [Fixture.raMatchNoKey])
      0 0 [Fixture.raMatchNoKey] rfl (by simp) (by decide)

/-- Claim C8: when no page yields a match, the certkey loop fails with
the not-found error naming the requested (system, account) pair, and
only after all pages up to the terminating empty page were queried;
likewise the bootstrap variant fails naming the pair only after
querying every consulted registration. -/
theorem C8_not_found :
    (∀ (sys acct : String) (src : Nat → PageResp) (N fuel : Nat),
      (∀ i, i < N → ∃ pg, src i = PageResp.ok pg ∧ pg ≠ [] ∧
        Certkey.scanPage sys acct pg = none) →
      src N = PageResp.ok [] → N + 1 ≤ fuel →
      Certkey.find_api_key_for_registration sys acct src fuel =
        some (Certkey.Outcome.notFound sys acct, List.range (N + 1))) ∧
    (∀ (sys acct : String) (src : Nat → Nat → PageResp) (rids : List Nat),
      (∀ rid ∈ rids, ∃ ras, src rid 0 = PageResp.ok ras ∧
        Plugin2.p2scan (strLower sys) (strLower acct) rid ras = none) →
      Plugin2.step3Go sys acct src rids =
        (Plugin2.P2Outcome.notFound sys acct, rids.map fun r => (r, 0))) := by
  constructor
  · intro sys acct src N fuel hfull hend hfuel
    have h := findFrom_exhaust sys acct src N 0 fuel
      (by simpa using hfull) (by simpa using hend) hfuel
    rw [Certkey.find_api_key_for_registration, h, List.range_eq_range']
  · exact step3_exhaust

/-- Witness for C8: requesting a pair present nowhere fails not-found
naming that pair, in both loop shapes. -/
theorem C8_witness :
    Certkey.find_api_key_for_registration "nope" "nobody" Fixture.wsrc 5 =
      some (Certkey.Outcome.notFound "nope" "nobody", List.range 3) ∧
    Plugin2.step3Go "nope" "nobody" Fixture.c2src [2, 3] =
      (Plugin2.P2Outcome.notFound "nope" "nobody", [(2, 0), (3, 0)]) := by
  constructor
  · exact C8_not_found.1 "nope" "nobody" Fixture.wsrc 2 5
      (by
        intro i hi
        refine ⟨[Fixture.raNoMatch], ?_, by simp, by decide⟩
        interval_cases i <;> rfl)
      rfl (by omega)
  · exact C8_not_found.2 "nope" "nobody" Fixture.c2src [2, 3]
      (by
        intro rid hr
        simp only [List.mem_cons, List.mem_singleton, List.not_mem_nil,
          or_false] at hr
        rcases hr with h | h <;> subst h <;> exact ⟨[], rfl, rfl⟩)

/-- Claim C9, counterexample: the Ansible-plugin `_get_json` truncates
its non-JSON diagnostic preview to 256 characters, not 512 — on a
300-character body the payload carries the 256-character prefix, which
differs from the first 512 characters of the body. -/
theorem C9_counterexample :
    P1.get_json "u" (P1.FetchOut.ok Fixture.c9raw false) =
      P1.GetJsonOut.errNonJson "u" (strTake Fixture.c9raw 256) ∧
    strTake Fixture.c9raw 256 ≠ strTake Fixture.c9raw 512 := by
  refine ⟨rfl, ?_⟩
  decide

/-- Claim C9, amended: the certkey/scruf variant fails on a 4xx/5xx or
malformed payload with an error carrying the HTTP status code and the
body truncated to its first 512 characters; the Ansible-plugin
variants instead truncate the non-JSON preview to 256 characters and
report transport/HTTP failures through the exception text alone,
without a separate status code or truncated body. -/
theorem C9_truncation :
    (∀ (w : String) (r : Certkey.HttpResp),
      400 ≤ r.status → r.status < 600 →
      Certkey.get_json_or_die w r =
        Certkey.GJOut.errHttp (w ++ ": HTTP " ++ toString r.status)
          (strTake r.text 512)) ∧
    (∀ (w : String) (r : Certkey.HttpResp),
      r.status < 400 → r.jsonOk = false →
      Certkey.get_json_or_die w r =
        Certkey.GJOut.errNonJson (w ++ ": non-JSON") r.contentType
          (strTake r.text 512)) ∧
    (∀ url raw : String,
      P1.get_json url (P1.FetchOut.ok raw false) =
        P1.GetJsonOut.errNonJson url (strTake raw 256)) ∧
    (∀ url m : String,
      P1.get_json url (P1.FetchOut.exc m) = P1.GetJsonOut.errFailed url m) := by
  refine ⟨?_, ?_, fun url raw => rfl, fun url m => rfl⟩
  · intro w r h1 h2
    simp [Certkey.get_json_or_die, h1, h2]
  · intro w r h1 h2
    have hno : ¬ (400 ≤ r.status ∧ r.status < 600) := by omega
    simp [Certkey.get_json_or_die, hno, h2]

/-- Witness for C9: a 500 response and a non-JSON 200 response from the
certkey variant, both carrying the 512-truncated body. -/
theorem C9_witness :
    Certkey.get_json_or_die "RSTS token" ⟨500, Fixture.c9raw, false, ""⟩ =
      Certkey.GJOut.errHttp ("RSTS token" ++ ": HTTP " ++ toString (500 : Nat))
        (strTake Fixture.c9raw 512) ∧
    Certkey.get_json_or_die "core_me" ⟨200, Fixture.c9raw, false, "text/html"⟩ =
      Certkey.GJOut.errNonJson ("core_me" ++ ": non-JSON") "text/html"
        (strTake Fixture.c9raw 512) := by
  exact ⟨C9_truncation.1 "RSTS token" ⟨500, Fixture.c9raw, false, ""⟩
      (by norm_num) (by norm_num),
    C9_truncation.2.1 "core_me" ⟨200, Fixture.c9raw, false, "text/html"⟩
      (by norm_num) rfl⟩

/-- Claim C10: in the index-selecting lookup variants, a negative
registration_index with -n ≤ i < 0 over a non-empty list of length n
selects the entry at position n + i and raises no out-of-range error;
the bootstrap variant alone rejects every negative index. -/
theorem C10_negative_index :
    (∀ (regs : List Reg) (i : Int),
      regs ≠ [] → -(regs.length : Int) ≤ i → i < 0 →
      ∃ r : Reg, P1.selectRegistration regs i = some r ∧
        regs.get? ((regs.length : Int) + i).toNat = some r) ∧
    (∀ (regs : List Reg) (i : Int), i < 0 →
      Plugin2.bootstrapSelect regs i = none) := by
  constructor
  · intro regs i hne hlb hneg
    have hlen : 0 < regs.length := List.length_pos.mpr hne
    have hnotpos : ¬ 0 ≤ i := by omega
    have habs : i.natAbs ≤ regs.length := by omega
    have hidx : regs.length - i.natAbs = ((regs.length : Int) + i).toNat := by omega
    have hlt : regs.length - i.natAbs < regs.length := by omega
    have hget : regs.get? (regs.length - i.natAbs) =
        some (regs.get ⟨regs.length - i.natAbs, hlt⟩) := List.get?_eq_get hlt
    refine ⟨regs.get ⟨regs.length - i.natAbs, hlt⟩, ?_, ?_⟩
    · simp [P1.selectRegistration, P1.pyIndex, hnotpos, habs, hget]
    · rw [← hidx]
      exact hget
  · intro regs i hneg
    simp [Plugin2.bootstrapSelect, hneg]

/-- Witness for C10: index -1 over a two-element list selects the last
entry in the index-selecting variants and is rejected by the bootstrap
variant. -/
theorem C10_witness :
    P1.selectRegistration [Fixture.regA, Fixture.regB] (-1) = some Fixture.regB ∧
    Plugin2.bootstrapSelect [Fixture.regA, Fixture.regB] (-1) = none := by
  constructor
  · obtain ⟨r, h1, h2⟩ := C10_negative_index.1 [Fixture.regA, Fixture.regB] (-1)
      (by decide) (by decide) (by decide)
    have h3 : ([Fixture.regA, Fixture.regB] : List Reg).get?
        ((((List.length [Fixture.regA, Fixture.regB] : Nat) : Int)) + (-1)).toNat =
        some Fixture.regB := by decide
    rw [h2] at h3
    injection h3 with h4
    rw [h1, h4]
  · exact C10_negative_index.2 [Fixture.regA, Fixture.regB] (-1) (by decide)
